import Mathlib

/-!
Shallow embedding of the analytics core of `src/dashboard_panel.py`
(Panel-Portfolio-Monitoring): the selection filter (`filter_data`),
the scenario simulator (`update_scenario`), the risk scorer
(the factor computation inside `create_performance_trends`) and the
metric normalizer (the per-pair loop inside `create_metric_visualization`).

Real-number financials are embedded as rationals (`ℚ`); Python's
`float('inf')` sentinel is embedded as `none : Option ℚ`, and a raw cell
value that `float(...)` cannot convert is embedded as a `none` cell.
-/

/-- A position row of the portfolio table: the columns of
`data/analyzed_portfolio.csv` that the analytics core reads, plus the
derived `Sector` column added in `dashboard_panel.py`. -/
structure Position where
  company : String
  category : String
  sector : String
  revenue : ℚ
  ebitda : ℚ
  totalDebt : ℚ
  interestExpense : ℚ
  interestCoverage : ℚ
  leverageRatio : ℚ
  ebitdaMargin : ℚ
  deriving DecidableEq, Repr

/-- `filter_data(category, sectors)` from `dashboard_panel.py` lines 88-97:
category `"All"` means no category restriction; a sector restriction is
applied only when the sector list is nonempty and does not contain
`"All"`. -/
def filter_data (positions : List Position) (category : String)
    (sectors : List String) : List Position :=
  let filtered :=
    if category = "All" then positions
    else positions.filter (fun p => decide (p.category = category))
  if "All" ∉ sectors ∧ sectors ≠ [] then
    filtered.filter (fun p => decide (p.sector ∈ sectors))
  else
    filtered

/-- The value returned by `update_scenario`: the recomputed interest
coverage and leverage ratio.  `none` embeds the `float('inf')` sentinel.
The source computes nothing else from the shocked position — in
particular no warning flag. -/
structure ScenarioResult where
  newCoverage : Option ℚ
  newLeverage : Option ℚ
  deriving DecidableEq, Repr

/-- `update_scenario(interest_rate_change, revenue_decline)` from
`dashboard_panel.py` lines 202-218, as a function of the selected
position's fields. -/
def update_scenario (pos : Position) (interest_rate_change revenue_decline : ℚ) :
    ScenarioResult :=
  let interest_expense := pos.interestExpense
  let ebitda := pos.ebitda
  let total_debt := pos.totalDebt
  let new_interest_expense := interest_expense * (1 + interest_rate_change / 100)
  let new_coverage : Option ℚ :=
    if new_interest_expense > 0 then some (ebitda / new_interest_expense) else none
  let new_ebitda := ebitda * (1 - revenue_decline / 100)
  let new_leverage : Option ℚ :=
    if new_ebitda ≠ 0 then some (total_debt / new_ebitda) else none
  { newCoverage := new_coverage, newLeverage := new_leverage }

/-- Modelled from the spec: the warning-flag condition of §4.4 — original
EBITDA < 0 and the new interest coverage < 0.  The source's
`update_scenario` computes no warning flag at all; its `ScenarioResult`
carries only the two recomputed ratios, so this predicate exists only in
the spec's words. -/
def specWarningFlag (pos : Position) (res : ScenarioResult) : Prop :=
  pos.ebitda < 0 ∧ ∃ q, res.newCoverage = some q ∧ q < 0

/-- The EBITDA sub-factor of the risk score, `dashboard_panel.py`
lines 288-292. -/
def ebitda_factor (ebitda ebitda_margin : ℚ) : ℚ :=
  if ebitda ≤ 0 then 20
  else max 0 (min 20 (20 * (1 - ebitda_margin)))

/-- The interest-coverage sub-factor, `dashboard_panel.py` lines 295-300. -/
def coverage_factor (interest_coverage : ℚ) : ℚ :=
  if interest_coverage ≤ 0 then 40
  else
    let coverage := min interest_coverage 10
    max 0 (min 40 (40 * (1 - coverage / 10)))

/-- The leverage sub-factor, `dashboard_panel.py` lines 303-308. -/
def leverage_factor (leverage_ratio : ℚ) : ℚ :=
  if leverage_ratio < 0 then 20
  else
    let leverage := min leverage_ratio 8
    max 0 (min 40 (5 * leverage))

/-- The composite risk score, `dashboard_panel.py` lines 311-314: the sum
of the three factors, clamped to [0, 100]. -/
def risk_score (ebitda ebitda_margin interest_coverage leverage_ratio : ℚ) : ℚ :=
  max 0 (min 100
    (ebitda_factor ebitda ebitda_margin + coverage_factor interest_coverage
      + leverage_factor leverage_ratio))

/-- The final clamp of `create_metric_visualization` line 407:
`max(0, min(normalized_value, 1))`. -/
def clamp01 (x : ℚ) : ℚ := max 0 (min x 1)

/-- `all_values.min()` of a pandas column, embedded on a list (the column
is nonempty whenever the source reaches the `.min()` call). -/
def listMin : List ℚ → ℚ
  | [] => 0
  | h :: t => t.foldl min h

/-- `all_values.max()` of a pandas column, embedded on a list. -/
def listMax : List ℚ → ℚ
  | [] => 0
  | h :: t => t.foldl max h

/-- The branch chain of `create_metric_visualization` lines 377-404 that
computes `normalized_value` before the final clamp, as a function of the
metric name, the converted raw value and the metric's column over the
filtered table (`all_values`; only the `Revenue`/`EBITDA` and generic
branches read it). -/
def normalized_value_raw (metric : String) (value : ℚ) (all_values : List ℚ) : ℚ :=
  if metric = "EBITDA Margin" then
    if value < 0 then (value + 1) / 2 else value
  else if metric = "Interest Coverage" then
    min (max value 0) 20 / 20
  else if metric = "Leverage Ratio" then
    1 - (min (max value 0) 10 / 10)
  else if metric = "Revenue" ∨ metric = "EBITDA" then
    let min_val := listMin all_values
    let max_val := listMax all_values
    if metric = "EBITDA" ∧ value < 0 then
      let norm_val := if min_val < 0 then value / min_val else 0
      (1 / 2) * (1 + norm_val)
    else
      let range_val := max_val - min_val
      if range_val > 0 then (value - min_val) / range_val else 1 / 2
  else
    let min_val := listMin all_values
    let max_val := listMax all_values
    let range_val := max_val - min_val
    if range_val > 0 then (value - min_val) / range_val else 1 / 2

/-- `normalized_value` as appended to the row, lines 377-407: the branch
result clamped into [0, 1]. -/
def normalized_value (metric : String) (value : ℚ) (all_values : List ℚ) : ℚ :=
  clamp01 (normalized_value_raw metric value all_values)

/-- Modelled from the spec (§4.2, Design Notes): the non-inverted
leverage policy — clamp the raw value to [0, 8] and divide by 8. -/
def leveragePolicyNoInvert (v : ℚ) : ℚ := min (max v 0) 8 / 8

/-- Modelled from the spec (§4.2, Design Notes): the inverted leverage
policy — `1 − (clamp(raw, 0, 10) / 10)`. -/
def leveragePolicyInvert (v : ℚ) : ℚ := 1 - min (max v 0) 10 / 10

/-- A row of the filtered table as the normalization loop sees it: the
company code and, per metric name, the cell's value after `float(...)`
conversion — `none` embeds a cell whose conversion raises
`ValueError`/`TypeError`. -/
structure RawRow where
  company : String
  cells : String → Option ℚ

/-- One element appended to `normalized_data`,
`dashboard_panel.py` lines 409-414. -/
structure NormRow where
  company : String
  metric : String
  original_value : ℚ
  norm_value : ℚ
  deriving DecidableEq, Repr

/-- `filtered_df[metric].astype(float)` (lines 389 and 401): converts the
whole column, and fails (`none`) as soon as any cell of the column is
unconvertible. -/
def column_values (rows : List RawRow) (metric : String) : Option (List ℚ) :=
  match rows with
  | [] => some []
  | r :: rest =>
    match r.cells metric, column_values rest metric with
    | some v, some vs => some (v :: vs)
    | _, _ => none

/-- The body of the `try` block, lines 373-417, for one
(position, metric) pair: convert the cell (line 374), then normalize.
The `EBITDA Margin` / `Interest Coverage` / `Leverage Ratio` branches
never read `all_values`, so the unread column is passed as `[]`; the
remaining branches first convert the whole column (`astype`), which can
itself fail.  `none` means the pair is skipped by the `except` clause. -/
def tryPair (all_rows : List RawRow) (row : RawRow) (metric : String) :
    Option NormRow :=
  match row.cells metric with
  | none => none
  | some value =>
    if metric = "EBITDA Margin" ∨ metric = "Interest Coverage"
        ∨ metric = "Leverage Ratio" then
      some ⟨row.company, metric, value, normalized_value metric value []⟩
    else
      match column_values all_rows metric with
      | none => none
      | some col => some ⟨row.company, metric, value, normalized_value metric value col⟩

/-- The nested loop of `create_metric_visualization` lines 367-417:
iterate the rows of `chart_data` and the selected metrics, appending one
normalized row per pair unless the pair's `try` block raises, in which
case the pair is skipped and iteration continues. -/
def create_normalized_data (all_rows chart_rows : List RawRow)
    (selected_metrics : List String) : List NormRow :=
  chart_rows.foldl (fun acc row =>
    selected_metrics.foldl (fun acc2 metric =>
      match tryPair all_rows row metric with
      | none => acc2
      | some nr => acc2 ++ [nr]) acc) []

/-! Helper lemmas. -/

lemma foldl_min_le_head (t : List ℚ) : ∀ a : ℚ, t.foldl min a ≤ a := by
  induction t with
  | nil => intro a; exact le_refl a
  | cons b t ih =>
    intro a
    calc (b :: t).foldl min a = t.foldl min (min a b) := rfl
    _ ≤ min a b := ih (min a b)
    _ ≤ a := min_le_left a b

lemma foldl_min_le_mem (t : List ℚ) : ∀ (a x : ℚ), x ∈ t → t.foldl min a ≤ x := by
  induction t with
  | nil => intro a x hx; exact absurd hx (List.not_mem_nil x)
  | cons b t ih =>
    intro a x hx
    rcases List.mem_cons.mp hx with h | h
    · subst h
      calc (x :: t).foldl min a = t.foldl min (min a x) := rfl
      _ ≤ min a x := foldl_min_le_head t (min a x)
      _ ≤ x := min_le_right a x
    · exact ih (min a b) x h

/-- The subset minimum is a lower bound for every member of the column. -/
lemma listMin_le_mem {x : ℚ} {l : List ℚ} (hx : x ∈ l) : listMin l ≤ x := by
  cases l with
  | nil => exact absurd hx (List.not_mem_nil x)
  | cons h t =>
    rcases List.mem_cons.mp hx with hh | ht
    · subst hh; exact foldl_min_le_head t x
    · exact foldl_min_le_mem t h x ht

lemma clamp01_mem (x : ℚ) : 0 ≤ clamp01 x ∧ clamp01 x ≤ 1 := by
  constructor
  · exact le_max_left 0 (min x 1)
  · have h1 : min x 1 ≤ 1 := min_le_right x 1
    exact max_le (by norm_num) h1

lemma metrics_foldl_eq (a : List RawRow) (r : RawRow) :
    ∀ (ms : List String) (acc : List NormRow),
      ms.foldl (fun acc2 metric =>
        match tryPair a r metric with
        | none => acc2
        | some nr => acc2 ++ [nr]) acc
      = acc ++ ms.filterMap (tryPair a r) := by
  intro ms
  induction ms with
  | nil => intro acc; simp
  | cons m ms ih =>
    intro acc
    cases h : tryPair a r m with
    | none => simp [List.foldl_cons, h, ih, List.filterMap_cons]
    | some nr => simp [List.foldl_cons, h, ih, List.filterMap_cons]

lemma rows_foldl_eq (a : List RawRow) (ms : List String) :
    ∀ (rows : List RawRow) (acc : List NormRow),
      rows.foldl (fun acc row =>
        ms.foldl (fun acc2 metric =>
          match tryPair a row metric with
          | none => acc2
          | some nr => acc2 ++ [nr]) acc) acc
      = acc ++ rows.flatMap (fun r => ms.filterMap (tryPair a r)) := by
  intro rows
  induction rows with
  | nil => intro acc; simp
  | cons r rows ih =>
    intro acc
    rw [List.foldl_cons, metrics_foldl_eq a r ms acc, ih]
    simp

lemma raw_eval_neg_ebitda {v : ℚ} {col : List ℚ} (hneg : v < 0)
    (hmneg : listMin col < 0) :
    normalized_value_raw "EBITDA" v col = (1 / 2) * (1 + v / listMin col) := by
  simp [normalized_value_raw, hneg, hmneg]

/-! Concrete inputs used by evaluation theorems and witnesses. -/

/-- A position with negative EBITDA and positive interest expense,
matching the spec's warning-flag scenario (`EBITDA = -500`,
`Interest Expense = 100`). -/
def negEbitdaPos : Position :=
  { company := "PD", category := "Red", sector := "Technology",
    revenue := 1000, ebitda := -500, totalDebt := 1000,
    interestExpense := 100, interestCoverage := -5,
    leverageRatio := -2, ebitdaMargin := -1/2 }

/-- A position whose stored ratios agree with their defining formulas. -/
def zeroShockPos : Position :=
  { company := "BOX", category := "Yellow", sector := "Technology",
    revenue := 1000, ebitda := 200, totalDebt := 400,
    interestExpense := 100, interestCoverage := 2,
    leverageRatio := 2, ebitdaMargin := 1/5 }

/-- A sample position for the filter witness. -/
def samplePos : Position :=
  { company := "RHI", category := "Green", sector := "Services",
    revenue := 500, ebitda := 50, totalDebt := 20,
    interestExpense := 5, interestCoverage := 10,
    leverageRatio := 2/5, ebitdaMargin := 1/10 }

/-- A row whose `Leverage Ratio` cell converts and whose other cells do
not. -/
def convRow : RawRow :=
  { company := "RHI", cells := fun m => if m = "Leverage Ratio" then some 2 else none }

/-- A row none of whose cells converts to a number. -/
def unconvRow : RawRow :=
  { company := "PD", cells := fun _ => none }

/-! Claim theorems. -/

/-- C1: the claim says `simulate` returns a `ScenarioResult` containing a
warning flag, set exactly when the original EBITDA < 0 and the new
coverage < 0.  The source's `update_scenario` computes no warning flag:
this theorem evaluates the embedded code at the claim's own input
(EBITDA = -500, Interest Expense = 100, rate = 5, decline = 0) and shows
that the returned value is just the two recomputed ratios — with the new
coverage -100/21 < 0, so the spec's warning condition does hold there,
yet nothing in the result carries it. -/
theorem scenario_result_carries_no_warning_flag :
    update_scenario negEbitdaPos 5 0
      = { newCoverage := some (-100/21), newLeverage := some (-2) } ∧
    specWarningFlag negEbitdaPos (update_scenario negEbitdaPos 5 0) := by
  have heval : update_scenario negEbitdaPos 5 0
      = { newCoverage := some (-100/21), newLeverage := some (-2) } := by
    norm_num [update_scenario, negEbitdaPos]
  refine ⟨heval, by norm_num [negEbitdaPos], -100/21, ?_, by norm_num⟩
  rw [heval]

/-- C2: the claim says the negative-EBITDA score is `0.5 * (1 + raw/min)`
when the subset minimum is negative (else 0) and that the result lies in
[0, 0.5].  The code does compute `0.5 * (1 + raw/min)`, but on the subset
{-100, 100} the raw value -100 scores 1 — outside the claimed [0, 0.5] —
contradicting the claim and the code's own comment "Scale to 0-0.5
range"; moreover the fallback arm yields 0.5, not the claimed 0. -/
theorem negative_ebitda_score_exceeds_half :
    normalized_value "EBITDA" (-100) [-100, 100] = 1 ∧
    ¬ normalized_value "EBITDA" (-100) [-100, 100] ≤ 1 / 2 ∧
    normalized_value_raw "EBITDA" (-1) [2, 3] = 1 / 2 := by
  refine ⟨?_, ?_, ?_⟩ <;>
    first
      | (simp [normalized_value, normalized_value_raw, listMin, listMax, clamp01];
          norm_num [max_def, min_def])
      | simp [normalized_value, normalized_value_raw, listMin, listMax, clamp01]

/-- C3: the Leverage Ratio normalization follows the inverted policy
`1 − (clamp(raw, 0, 10) / 10)` for every raw value and every column, and
it does not follow the non-inverted `clamp(raw, 0, 8) / 8` policy. -/
theorem leverage_normalization_policy :
    (∀ (v : ℚ) (col : List ℚ),
      normalized_value_raw "Leverage Ratio" v col = leveragePolicyInvert v) ∧
    ¬ (∀ (v : ℚ) (col : List ℚ),
      normalized_value_raw "Leverage Ratio" v col = leveragePolicyNoInvert v) := by
  constructor
  · intro v col
    simp [normalized_value_raw, leveragePolicyInvert]
  · intro h
    have h4 := h 4 []
    have hL : normalized_value_raw "Leverage Ratio" 4 [] = 3 / 5 := by
      simp [normalized_value_raw]
      norm_num [max_def, min_def]
    rw [hL] at h4
    norm_num [leveragePolicyNoInvert, max_def, min_def] at h4

/-- C4: with zero shocks, `update_scenario` returns exactly the stored
interest coverage and leverage ratio, provided the stored ratios agree
with their defining formulas (`Interest Coverage = EBITDA / Interest
Expense` with positive interest expense, `Leverage Ratio = Total Debt /
EBITDA` with nonzero EBITDA).  Over `ℚ` the recovery is exact. -/
theorem scenario_zero_shock_identity (pos : Position)
    (hie : 0 < pos.interestExpense)
    (hic : pos.interestCoverage = pos.ebitda / pos.interestExpense)
    (he : pos.ebitda ≠ 0)
    (hlr : pos.leverageRatio = pos.totalDebt / pos.ebitda) :
    update_scenario pos 0 0
      = { newCoverage := some pos.interestCoverage,
          newLeverage := some pos.leverageRatio } := by
  norm_num [update_scenario, hie, he, hic, hlr]

/-- Witness for C4 at a concrete position. -/
theorem scenario_zero_shock_identity_witness :
    update_scenario zeroShockPos 0 0
      = { newCoverage := some 2, newLeverage := some 2 } := by
  have h := scenario_zero_shock_identity zeroShockPos
    (by norm_num [zeroShockPos]) (by norm_num [zeroShockPos])
    (by norm_num [zeroShockPos]) (by norm_num [zeroShockPos])
  simpa [zeroShockPos] using h

/-- C5: for every metric name (known or unknown), every raw value and
every column, the normalized score lies in [0, 1]: every branch result
passes through the final clamp. -/
theorem normalized_value_in_unit_interval (metric : String) (value : ℚ)
    (all_values : List ℚ) :
    0 ≤ normalized_value metric value all_values ∧
    normalized_value metric value all_values ≤ 1 :=
  clamp01_mem (normalized_value_raw metric value all_values)

/-- C6: the composite risk score — the sum of the EBITDA, coverage and
leverage sub-factors, clamped to [0, 100] — lies in [0, 100] for
arbitrary rational inputs; as a plain function of the four ratios it is
deterministic and pure. -/
theorem risk_score_in_range (ebitda ebitda_margin interest_coverage leverage_ratio : ℚ) :
    0 ≤ risk_score ebitda ebitda_margin interest_coverage leverage_ratio ∧
    risk_score ebitda ebitda_margin interest_coverage leverage_ratio ≤ 100 := by
  constructor
  · exact le_max_left _ _
  · exact max_le (by norm_num) (min_le_left _ _)

/-- C7: the EBITDA sub-factor equals 20 whenever EBITDA ≤ 0 regardless of
the margin (the non-positive branch short-circuits), and equals
`clamp(20 * (1 − margin), 0, 20)` whenever EBITDA > 0. -/
theorem ebitda_factor_branches (ebitda ebitda_margin : ℚ) :
    (ebitda ≤ 0 → ebitda_factor ebitda ebitda_margin = 20) ∧
    (0 < ebitda →
      ebitda_factor ebitda ebitda_margin
        = max 0 (min 20 (20 * (1 - ebitda_margin)))) := by
  constructor
  · intro h
    rw [ebitda_factor, if_pos h]
  · intro h
    rw [ebitda_factor, if_neg (not_le.mpr h)]

/-- Witness for C7: at EBITDA = -1000000 and margin = -0.5 the factor is
20, not the 30 the margin formula would give. -/
theorem ebitda_factor_branches_witness :
    ebitda_factor (-1000000) (-1/2) = 20 ∧ 20 * (1 - (-1/2 : ℚ)) = 30 :=
  ⟨(ebitda_factor_branches (-1000000) (-1/2)).1 (by norm_num), by norm_num⟩

/-- C8: with the "All" category sentinel and a sector list that is empty
or contains "All", `filter_data` applies no restriction and returns the
store unchanged; and every filter result is a sublist of the store, so
the original relative ordering is always preserved. -/
theorem filter_all_sentinel_identity (positions : List Position)
    (sectors : List String) (h : "All" ∈ sectors ∨ sectors = []) :
    filter_data positions "All" sectors = positions ∧
    ∀ (category : String) (sectors2 : List String),
      (filter_data positions category sectors2).Sublist positions := by
  constructor
  · have hcond : ¬("All" ∉ sectors ∧ sectors ≠ []) := by
      rcases h with h | h
      · exact fun hc => hc.1 h
      · exact fun hc => hc.2 h
    simp only [filter_data, if_neg hcond]
    simp
  · intro category sectors2
    have h1 : (if category = "All" then positions
        else positions.filter (fun p => decide (p.category = category))).Sublist
          positions := by
      split
      · exact List.Sublist.refl positions
      · exact List.filter_sublist positions
    simp only [filter_data]
    split
    · exact List.Sublist.trans (List.filter_sublist _) h1
    · exact h1

/-- Witness for C8 at a concrete one-position store. -/
theorem filter_all_sentinel_identity_witness :
    filter_data [samplePos] "All" ["All"] = [samplePos] :=
  (filter_all_sentinel_identity [samplePos] ["All"] (Or.inl (by simp))).1

/-- C9: the batch built by the normalization loop contains exactly one
row per (position, metric) pair whose `try` block succeeds, in order —
a pair whose cell value does not convert contributes nothing and leaves
every other pair's processing unchanged (the loop is equivalent to an
independent per-pair `filterMap`); and a pair whose own cell is
unconvertible is always skipped, never treated as 0.  Totality of
`create_normalized_data` embeds "does not raise past the call
boundary". -/
theorem normalization_skips_unconvertible (all_rows chart_rows : List RawRow)
    (selected_metrics : List String) :
    create_normalized_data all_rows chart_rows selected_metrics
      = chart_rows.flatMap
          (fun row => selected_metrics.filterMap (tryPair all_rows row)) ∧
    ∀ (row : RawRow) (metric : String),
      row.cells metric = none → tryPair all_rows row metric = none := by
  constructor
  · rw [create_normalized_data, rows_foldl_eq]
    simp
  · intro row metric hnone
    rw [tryPair, hnone]

/-- Witness for C9: a row with an unconvertible cell is skipped. -/
theorem normalization_skips_unconvertible_witness :
    tryPair [unconvRow, convRow] unconvRow "Leverage Ratio" = none :=
  (normalization_skips_unconvertible [unconvRow, convRow] [unconvRow, convRow]
    ["Leverage Ratio"]).2 unconvRow "Leverage Ratio" rfl

/-- C10: for a member raw EBITDA value v < 0 of the column, the column's
minimum is at most v and hence negative, so the fallback arm for a
non-negative minimum is unreachable; the pre-clamp score is always
`0.5 * (1 + v/min)`, lies in (0.5, 1], equals 1 exactly when v is the
minimum, is unchanged by the final clamp, and is strictly larger for a
more deeply negative member value. -/
theorem negative_ebitda_member_score (v : ℚ) (col : List ℚ)
    (hmem : v ∈ col) (hneg : v < 0) :
    listMin col < 0 ∧
    normalized_value_raw "EBITDA" v col = (1 / 2) * (1 + v / listMin col) ∧
    1 / 2 < normalized_value_raw "EBITDA" v col ∧
    normalized_value_raw "EBITDA" v col ≤ 1 ∧
    (normalized_value_raw "EBITDA" v col = 1 ↔ v = listMin col) ∧
    normalized_value "EBITDA" v col = normalized_value_raw "EBITDA" v col ∧
    ∀ w ∈ col, w < v →
      normalized_value "EBITDA" v col < normalized_value "EBITDA" w col := by
  have hm : listMin col ≤ v := listMin_le_mem hmem
  have hmneg : listMin col < 0 := lt_of_le_of_lt hm hneg
  have hraw := raw_eval_neg_ebitda hneg hmneg
  have hrpos : 0 < v / listMin col := div_pos_iff.mpr (Or.inr ⟨hneg, hmneg⟩)
  have hrle : v / listMin col ≤ 1 := (div_le_one_of_neg hmneg).mpr hm
  have hlow : 1 / 2 < normalized_value_raw "EBITDA" v col := by
    rw [hraw]; linarith
  have hhigh : normalized_value_raw "EBITDA" v col ≤ 1 := by
    rw [hraw]; linarith
  have hclamp : normalized_value "EBITDA" v col
      = normalized_value_raw "EBITDA" v col := by
    rw [normalized_value, clamp01, min_eq_left hhigh, max_eq_right (by linarith)]
  refine ⟨hmneg, hraw, hlow, hhigh, ?_, hclamp, ?_⟩
  · rw [hraw]
    constructor
    · intro h1
      have h2 : v / listMin col = 1 := by linarith
      exact (div_eq_one_iff_eq (ne_of_lt hmneg)).mp h2
    · intro h1
      rw [h1, div_self (ne_of_lt hmneg)]
      norm_num
  · intro w hwmem hwlt
    have hwneg : w < 0 := lt_trans hwlt hneg
    have hwm : listMin col ≤ w := listMin_le_mem hwmem
    have hraww := raw_eval_neg_ebitda hwneg hmneg
    have hwrle : w / listMin col ≤ 1 := (div_le_one_of_neg hmneg).mpr hwm
    have hwrpos : 0 < w / listMin col := div_pos_iff.mpr (Or.inr ⟨hwneg, hmneg⟩)
    have hwhigh : normalized_value_raw "EBITDA" w col ≤ 1 := by
      rw [hraww]; linarith
    have hwclamp : normalized_value "EBITDA" w col
        = normalized_value_raw "EBITDA" w col := by
      rw [normalized_value, clamp01, min_eq_left hwhigh, max_eq_right (by nlinarith)]
    have hdivlt : v / listMin col < w / listMin col :=
      (div_lt_div_right_of_neg hmneg).mpr hwlt
    rw [hclamp, hwclamp, hraw, hraww]
    linarith

/-- Witness for C10 at the member value -50 of the column
[-100, -50, 100]. -/
theorem negative_ebitda_member_score_witness :
    1 / 2 < normalized_value_raw "EBITDA" (-50) [-100, -50, 100] :=
  (negative_ebitda_member_score (-50) [-100, -50, 100]
    (by simp) (by norm_num)).2.2.1
